import Mathlib

/-!
Verification of the REDEYE interactive nmap front-end (`src/redeye.py`)
against its natural-language specification.

The Python source is shallowly embedded: pure fragments become Lean
functions, filesystem and environment state become explicit parameters
(a directory listing, a search-path predicate, the contents of
`/etc/os-release`, ...), and interactive input becomes explicit string
arguments.  Python string operations used by the source (`str.strip`,
`str.lower`, `str.replace`, `int(...)`, substring membership, negative
list indexing, `os.path.join`, `sorted`) are modelled over `List Char`
/ `List String` faithfully for the ASCII inputs the program handles.
-/

namespace Redeye

/-! ### Python string primitives -/

/-- `a.data ++ b.data` is the data of `a ++ b`. -/
theorem str_data_append (a b : String) : (a ++ b).data = a.data ++ b.data := by
  cases a; cases b; rfl

/-- Strings with equal character data are equal. -/
theorem str_eq_of_data {a b : String} (h : a.data = b.data) : a = b := by
  cases a with
  | mk d1 =>
    cases b with
    | mk d2 => exact congrArg String.mk h

/-- String append is associative. -/
theorem str_append_assoc (a b c : String) : (a ++ b) ++ c = a ++ (b ++ c) := by
  apply str_eq_of_data
  simp [str_data_append, List.append_assoc]

/-- A string whose data is nonempty is not the empty string. -/
theorem str_ne_empty_of_data {a : String} (h : a.data ≠ []) : a ≠ "" := by
  intro he
  exact h (by rw [he])

/-- Python `s.startswith(p)`. -/
def strStartsWith (s p : String) : Bool :=
  List.isPrefixOf p.data s.data

/-- Python `s.endswith(p)`. -/
def strEndsWith (s p : String) : Bool :=
  List.isSuffixOf p.data s.data

/-- Python `p in s` (substring containment). -/
def strContains (s p : String) : Bool :=
  (List.range (s.data.length + 1)).any (fun i => List.isPrefixOf p.data (s.data.drop i))

/-- Python `s.strip()`: remove leading and trailing whitespace. -/
def pyStrip (s : String) : String :=
  ⟨(((s.data.dropWhile Char.isWhitespace).reverse.dropWhile Char.isWhitespace).reverse)⟩

/-- Python `s.lower()` (ASCII case folding suffices for the inputs involved). -/
def pyLower (s : String) : String :=
  ⟨s.data.map Char.toLower⟩

/-- Digits of a decimal literal folded into a natural number. -/
def digitsToNat (l : List Char) : Nat :=
  l.foldl (fun acc c => acc * 10 + (c.toNat - '0'.toNat)) 0

/-- Python `int(s)`: strip whitespace, optional sign, decimal digits;
`none` models the `ValueError` raised on any other input.
(Numeric-literal underscores and non-ASCII digits are not modelled.) -/
def pyInt? (s : String) : Option Int :=
  let t := (pyStrip s).data
  match t with
  | '-' :: ds =>
    if ds ≠ [] ∧ ds.all Char.isDigit then some (-(digitsToNat ds : Int)) else none
  | '+' :: ds =>
    if ds ≠ [] ∧ ds.all Char.isDigit then some (digitsToNat ds : Int) else none
  | ds =>
    if ds ≠ [] ∧ ds.all Char.isDigit then some (digitsToNat ds : Int) else none

/-- Python list indexing `l[i]` with an `int` index: non-negative indices
must be below the length, negative indices wrap from the end; `none`
models the `IndexError` raised otherwise. -/
def pyIndex {α : Type} (l : List α) (i : Int) : Option α :=
  if 0 ≤ i then l.get? i.toNat
  else if (-i).toNat ≤ l.length then l.get? (l.length - (-i).toNat)
  else none

/-- One fuel step of Python `s.replace(pat, repl)` (all non-overlapping
occurrences, scanned left to right).  The fuel only bounds recursion depth;
`pyReplaceList` always supplies enough. -/
def pyReplaceFuel (pat repl : List Char) : Nat → List Char → List Char
  | _, [] => []
  | 0, s => s
  | fuel + 1, c :: rest =>
    if pat ≠ [] ∧ List.isPrefixOf pat (c :: rest) then
      repl ++ pyReplaceFuel pat repl fuel ((c :: rest).drop pat.length)
    else
      c :: pyReplaceFuel pat repl fuel rest

/-- Python `s.replace(pat, repl)` on character lists, for nonempty `pat`
(the source only calls it with the literal pattern `".xml"`). -/
def pyReplaceList (s pat repl : List Char) : List Char :=
  pyReplaceFuel pat repl s.length s

/-- Python `s.replace(pat, repl)` on strings. -/
def pyStrReplace (s pat repl : String) : String :=
  ⟨pyReplaceList s.data pat.data repl.data⟩

/-- `os.path.join(a, b)` for POSIX paths (two components, as used by the
source). -/
def path_join (a b : String) : String :=
  if strStartsWith b "/" then b
  else if a = "" then b
  else if strEndsWith a "/" then a ++ b
  else a ++ "/" ++ b

/-! ### Python `sorted` on strings -/

/-- Lexicographic `≤` on character lists by code point, as Python compares
strings. -/
def lexLe : List Char → List Char → Bool
  | [], _ => true
  | _ :: _, [] => false
  | a :: as, b :: bs =>
    if a.toNat < b.toNat then true
    else if b.toNat < a.toNat then false
    else lexLe as bs

/-- Python string order as a proposition. -/
def strLeProp (a b : String) : Prop := lexLe a.data b.data = true

instance : DecidableRel strLeProp := fun _ _ =>
  inferInstanceAs (Decidable (_ = true))

theorem lexLe_total (xs ys : List Char) : lexLe xs ys = true ∨ lexLe ys xs = true := by
  induction xs generalizing ys with
  | nil => left; rfl
  | cons a as ih =>
    cases ys with
    | nil => right; rfl
    | cons b bs =>
      rcases Nat.lt_trichotomy a.toNat b.toNat with h | h | h
      · left; simp [lexLe, h]
      · have h2 : ¬ a.toNat < b.toNat := by omega
        have h3 : ¬ b.toNat < a.toNat := by omega
        rcases ih bs with h4 | h4
        · left; simp [lexLe, h2, h3, h4]
        · right; simp [lexLe, h2, h3, h4]
      · right; simp [lexLe, h]

theorem lexLe_trans (xs ys zs : List Char) (h1 : lexLe xs ys = true)
    (h2 : lexLe ys zs = true) : lexLe xs zs = true := by
  induction xs generalizing ys zs with
  | nil => rfl
  | cons a as ih =>
    cases ys with
    | nil => simp [lexLe] at h1
    | cons b bs =>
      cases zs with
      | nil => simp [lexLe] at h2
      | cons c cs =>
        simp only [lexLe] at h1 h2 ⊢
        by_cases hab : a.toNat < b.toNat
        · by_cases hbc : b.toNat < c.toNat
          · have h6 : a.toNat < c.toNat := by omega
            simp [h6]
          · by_cases hcb : c.toNat < b.toNat
            · simp [hbc, hcb] at h2
            · have h6 : a.toNat < c.toNat := by omega
              simp [h6]
        · by_cases hba : b.toNat < a.toNat
          · simp [hab, hba] at h1
          · by_cases hbc : b.toNat < c.toNat
            · have h6 : a.toNat < c.toNat := by omega
              simp [h6]
            · by_cases hcb : c.toNat < b.toNat
              · simp [hbc, hcb] at h2
              · have h6 : ¬ a.toNat < c.toNat := by omega
                have h7 : ¬ c.toNat < a.toNat := by omega
                simp only [h6, h7, if_false, if_neg]
                exact ih bs cs (by simpa [hab, hba] using h1) (by simpa [hbc, hcb] using h2)

instance : IsTotal String strLeProp :=
  ⟨fun a b => lexLe_total a.data b.data⟩

instance : IsTrans String strLeProp :=
  ⟨fun a b c => lexLe_trans a.data b.data c.data⟩

/-- Python `sorted` on strings: a stable sort by the code-point order, so
it agrees with insertion sort. -/
def pySorted (l : List String) : List String :=
  List.insertionSort strLeProp l

/-! ### Constants and environment (`src/redeye.py` top of file)

The host environment a run observes is captured as a snapshot: the
`PREFIX` environment variable, existence of the termux directory and of
`/etc/os-release`, the contents read from it (`none` models a raised
read exception), the search-path predicate behind `shutil.which`, and
`os.geteuid() == 0`.  Package installs are not given the power to mutate
the snapshot; the claims settled here do not depend on post-install
re-checks succeeding. -/

/-- `REQUIRED = ["nmap", "ndiff", "xsltproc"]`. -/
def REQUIRED : List String := ["nmap", "ndiff", "xsltproc"]

/-- `SESSIONS_DIR = "redeye_sessions"`. -/
def SESSIONS_DIR : String := "redeye_sessions"

/-- Snapshot of the host environment observed by one run. -/
structure Env where
  prefixVar : String
  termuxDirExists : Bool
  osReleaseExists : Bool
  osReleaseContent : Option String
  which : String → Bool
  isRoot : Bool

/-- Result quadruple of `detect_os`. -/
structure DetectResult where
  osId : String
  pkg : Option String
  installCmd : Option (List String)
  updateCmd : Option (List String)
deriving DecidableEq

/-- `data.replace('"', '')`: delete every double-quote character. -/
def stripQuotes (s : String) : String :=
  ⟨s.data.filter (fun c => c ≠ '"')⟩

/-- `detect_os()` (`src/redeye.py` lines 61-147): termux short-circuit,
then `/etc/os-release` substring matching, then search-path probing. -/
def detect_os (env : Env) : DetectResult :=
  if strStartsWith env.prefixVar "/data/data/com.termux/files/usr" || env.termuxDirExists then
    ⟨"termux", some "pkg", some ["pkg", "install", "-y"], some ["pkg", "update", "-y"]⟩
  else
    let fromRelease : DetectResult :=
      if env.osReleaseExists then
        match env.osReleaseContent with
        | some raw =>
          let data := pyLower raw
          if strContains data "ubuntu" then
            ⟨"ubuntu", some "apt", some ["apt-get", "install", "-y"],
              some ["apt-get", "update", "-y"]⟩
          else if strContains data "debian" && !strContains data "ubuntu" then
            ⟨"debian", some "apt", some ["apt-get", "install", "-y"],
              some ["apt-get", "update", "-y"]⟩
          else if strContains data "arch" then
            ⟨"arch", some "pacman", some ["pacman", "-S", "--noconfirm"],
              some ["pacman", "-Sy", "--noconfirm"]⟩
          else if strContains data "fedora" || strContains data "rhel" ||
              strContains data "centos" || strContains data "red hat" then
            if env.which "dnf" then
              ⟨"redhat", some "dnf", some ["dnf", "install", "-y"],
                some ["dnf", "makecache", "--refresh", "-y"]⟩
            else
              ⟨"redhat", some "yum", some ["yum", "install", "-y"],
                some ["yum", "makecache", "-y"]⟩
          else if strContains data "id_like=debian" ||
              strContains (stripQuotes data) "id_like=debian" then
            ⟨"debian-like", some "apt", some ["apt-get", "install", "-y"],
              some ["apt-get", "update", "-y"]⟩
          else
            ⟨"unknown", none, none, none⟩
        | none => ⟨"unknown", none, none, none⟩
      else ⟨"unknown", none, none, none⟩
    if fromRelease.pkg.isSome then fromRelease
    else if env.which "apt-get" then
      ⟨if fromRelease.osId ≠ "unknown" then fromRelease.osId else "debian-like",
        some "apt", some ["apt-get", "install", "-y"], some ["apt-get", "update", "-y"]⟩
    else if env.which "pacman" then
      ⟨"arch", some "pacman", some ["pacman", "-S", "--noconfirm"],
        some ["pacman", "-Sy", "--noconfirm"]⟩
    else if env.which "dnf" then
      ⟨"redhat", some "dnf", some ["dnf", "install", "-y"],
        some ["dnf", "makecache", "--refresh", "-y"]⟩
    else if env.which "yum" then
      ⟨"redhat", some "yum", some ["yum", "install", "-y"],
        some ["yum", "makecache", "-y"]⟩
    else if env.which "pkg" then
      ⟨"termux", some "pkg", some ["pkg", "install", "-y"], some ["pkg", "update", "-y"]⟩
    else
      ⟨fromRelease.osId, none, none, none⟩

/-- `check_tools()`: partition `REQUIRED` into (found, missing). -/
def check_tools (which : String → Bool) : List String × List String :=
  (REQUIRED.filter (fun b => which b), REQUIRED.filter (fun b => !(which b)))

/-- `pkg_name_for_bin(bin_name, pkg_manager)` (`src/redeye.py` lines 160-180). -/
def pkg_name_for_bin (bin_name pkg_manager : String) : String :=
  if pkg_manager = "apt" ∨ pkg_manager = "pkg" then
    if bin_name = "ndiff" then "nmap" else bin_name
  else if pkg_manager = "pacman" then
    if bin_name = "xsltproc" then "libxslt"
    else if bin_name = "ndiff" then "nmap"
    else bin_name
  else if pkg_manager = "dnf" ∨ pkg_manager = "yum" then
    if bin_name = "xsltproc" then "libxslt"
    else if bin_name = "ndiff" then "nmap"
    else bin_name
  else bin_name

/-- The `package_map` dict literal in `install_dependency` on the
`apt-get` branch (`src/redeye.py` line 349):
`{'nmap': 'nmap', 'ndiff': 'ndiff', 'xsltproc': 'xsltproc'}`;
`.get` on any other key yields `None`. -/
def install_dependency_package_map_apt (tool : String) : Option String :=
  if tool = "nmap" then some "nmap"
  else if tool = "ndiff" then some "ndiff"
  else if tool = "xsltproc" then some "xsltproc"
  else none

/-- The `package_map` dict literal in `install_dependency` on the
`dnf`/`yum` branch (`src/redeye.py` line 356):
`{'nmap': 'nmap', 'ndiff': 'ndiff', 'xsltproc': 'libxslt'}`. -/
def install_dependency_package_map_redhat (tool : String) : Option String :=
  if tool = "nmap" then some "nmap"
  else if tool = "ndiff" then some "ndiff"
  else if tool = "xsltproc" then some "libxslt"
  else none

/-- Deduplicate preserving first-seen order (the `seen`/`uniq` loop in
`attempt_install`). -/
def dedupeAux : List String → List String → List String
  | [], _ => []
  | p :: ps, seen =>
    if seen.contains p then dedupeAux ps seen else p :: dedupeAux ps (p :: seen)

def dedupe (l : List String) : List String := dedupeAux l []

/-- `attempt_install(missing, pkg_manager, install_cmd, update_cmd)`:
returns success together with the list of external commands issued, in
order.  Exit codes of the issued commands are not modelled (the source
only logs them); success is decided by the re-check against the
environment snapshot, as in the source. -/
def attempt_install (missing : List String) (pkg_manager : Option String)
    (install_cmd update_cmd : Option (List String)) (env : Env) :
    Bool × List (List String) :=
  match pkg_manager, install_cmd with
  | some pm, some ic =>
    let updates : List (List String) :=
      match update_cmd with
      | some u => [u]
      | none => []
    let uniq := dedupe (missing.map (fun b => pkg_name_for_bin b pm))
    let cmd := ic ++ uniq
    let ran := updates ++ [cmd]
    let still_missing := (check_tools env.which).2
    if still_missing.isEmpty then (true, ran)
    else if !env.isRoot then
      let ran2 := ran ++ [["sudo"] ++ cmd]
      let still2 := (check_tools env.which).2
      (still2.isEmpty, ran2)
    else (false, ran)
  | _, _ => (false, [])

/-- `ensure_tools()` (`src/redeye.py` lines 269-291): returns the success
flag together with every update/install command issued. -/
def ensure_tools (env : Env) : Bool × List (List String) :=
  let missing := (check_tools env.which).2
  if missing.isEmpty then (true, [])
  else
    let d := detect_os env
    let (ok, cmds) := attempt_install missing d.pkg d.installCmd d.updateCmd env
    if ok then (true, cmds)
    else
      let still := (check_tools env.which).2
      if !still.isEmpty then (false, cmds) else (true, cmds)

/-! ### Process Runner and Session Store -/

/-- `is_nmap_scan` from `run_command` (`src/redeye.py` line 420):
`command[0] == 'nmap' and '-sn' not in command and '-sL' not in command`. -/
def is_nmap_scan (command : List String) : Bool :=
  command.head? == some "nmap" && !(command.contains "-sn") && !(command.contains "-sL")

/-- The argument vector `run_command` actually launches
(`src/redeye.py` lines 415-433): when a session is active (a non-empty
session string in Python truthiness) and the invocation is a real nmap
scan, `-oN`/`-oX` output paths under the session directory are appended;
otherwise the vector is launched unchanged.  `timestamp` stands for
`datetime.now().strftime("%Y-%m-%d_%H-%M-%S")`. -/
def run_command_args (command : List String) (session : Option String)
    (timestamp : String) : List String :=
  match session with
  | some s =>
    if (s != "") && is_nmap_scan command then
      let base := path_join (path_join SESSIONS_DIR s) ("scan_" ++ timestamp)
      command ++ ["-oN", base ++ ".nmap", "-oX", base ++ ".xml"]
    else command
  | none => command

/-- `set_session()` (`src/redeye.py` lines 450-464): strip the entered
name; empty names and `OSError` from `os.makedirs` (modelled by
`makedirsOk = false`) yield `None`. -/
def set_session (rawName : String) (makedirsOk : Bool) : Option String :=
  let name := pyStrip rawName
  if name = "" then none
  else if makedirsOk then some name
  else none

/-- `list_files_in_session(session, extension)` (`src/redeye.py` lines
466-481): the session directory state is the pair of its existence flag
and its entry listing. -/
def list_files_in_session (dirExists : Bool) (listing : List String)
    (extension : String) : List String :=
  if !dirExists then []
  else pySorted (listing.filter (fun f => strEndsWith f extension))

/-! ### Comparison and report actions -/

/-- Observable outcome of `compare_scans` (`src/redeye.py` lines 487-507). -/
inductive CompareOutcome where
  | noSession
  | needTwoFiles
  | invalidSelection
  | runsNdiff (file1_path file2_path : String)
deriving DecidableEq

/-- `compare_scans(session)`: the two prompts are modelled as the strings
`in1`, `in2`.  A `ValueError` from either `int(...)` or an `IndexError`
from either subscript lands in the common `except` arm (the source reads
the second prompt only after the first parses, but the observable outcome
is `invalidSelection` either way). -/
def compare_scans (session : Option String) (dirExists : Bool)
    (listing : List String) (in1 in2 : String) : CompareOutcome :=
  match session with
  | none => .noSession
  | some s =>
    if s = "" then .noSession
    else
      let xml_files := list_files_in_session dirExists listing ".xml"
      if xml_files.length < 2 then .needTwoFiles
      else
        match pyInt? in1, pyInt? in2 with
        | some n1, some n2 =>
          match pyIndex xml_files (n1 - 1), pyIndex xml_files (n2 - 1) with
          | some f1, some f2 =>
            .runsNdiff (path_join (path_join SESSIONS_DIR s) f1)
              (path_join (path_join SESSIONS_DIR s) f2)
          | _, _ => .invalidSelection
        | _, _ => .invalidSelection

/-- `html_path = xml_path.replace('.xml', '.html')`
(`src/redeye.py` line 523). -/
def html_path_for (xml_path : String) : String :=
  pyStrReplace xml_path ".xml" ".html"

/-- Observable outcome of the selection part of `generate_report`
(`src/redeye.py` lines 519-538). -/
inductive ReportOutcome where
  | invalidSelection
  | runsXsltproc (html_path xml_path : String)
deriving DecidableEq

/-- The selection and path derivation of `generate_report(session)` once a
non-empty list of `.xml` files has been presented:
`choice = int(input) - 1`, `xml_file = xml_files[choice]`,
`xml_path = os.path.join(SESSIONS_DIR, session, xml_file)`,
`html_path = xml_path.replace('.xml', '.html')`, then
`xsltproc -o html_path xml_path` is run. -/
def generate_report_select (session : String) (xml_files : List String)
    (userInput : String) : ReportOutcome :=
  match pyInt? userInput with
  | none => .invalidSelection
  | some n =>
    match pyIndex xml_files (n - 1) with
    | none => .invalidSelection
    | some xml_file =>
      let xml_path := path_join (path_join SESSIONS_DIR session) xml_file
      .runsXsltproc (html_path_for xml_path) xml_path

/-! ### Menus -/

/-- Python truthiness of the optional port specification. -/
def truthyStr : Option String → Bool
  | none => false
  | some s => s != ""

/-- `port_args = ['-p', ports] if ports else []`. -/
def port_args (ports : Option String) : List String :=
  match ports with
  | some p => if p != "" then ["-p", p] else []
  | none => []

/-- The argument vector built by one choice of the advanced-scans menu
(`src/redeye.py` lines 601-690).  `zombie` is the idle-scan prompt's
answer, `confirm` the answer to the exploit-scan confirmation; `none`
means no command is run for that choice. -/
def advanced_scan_command (choice target : String) (ports : Option String)
    (zombie confirm : String) : Option (List String) :=
  let pa := port_args ports
  if choice = "1" then
    some (["sudo", "nmap", "-sn", "-PE", "-PS22,80,443", "-PA80,443", "-PU53", "-T4"] ++ [target])
  else if choice = "2" then
    some (["sudo", "nmap", "-Pn", "-sS", "-T4"] ++ (if truthyStr ports then pa else ["-p-"]) ++ [target])
  else if choice = "3" then
    some (["sudo", "nmap", "-f", "-sS", "-T4"] ++ pa ++ [target])
  else if choice = "4" then
    some (["sudo", "nmap", "-D", "RND:10", "-sS", "-T4"] ++ pa ++ [target])
  else if choice = "5" then
    if zombie != "" then some (["sudo", "nmap", "-Pn", "-sI", zombie] ++ pa ++ [target])
    else none
  else if choice = "6" then
    some (["nmap", "--script", "http-enum,http-title,http-vuln*", "-sV", "-T4"] ++
      (if truthyStr ports then pa else ["-p", "80,443"]) ++ [target])
  else if choice = "7" then
    some (["nmap", "--script", "smb-vuln*", "-sV", "-T4"] ++
      (if truthyStr ports then pa else ["-p", "139,445"]) ++ [target])
  else if choice = "8" then
    some (["nmap", "--script", "ftp-anon,ftp-vuln*", "-sV", "-T4"] ++
      (if truthyStr ports then pa else ["-p", "21"]) ++ [target])
  else if choice = "9" then
    some (["nmap", "--script", "mysql-empty-password,mysql-vuln*", "-sV", "-T4"] ++
      (if truthyStr ports then pa else ["-p", "3306"]) ++ [target])
  else if choice = "10" then
    some (["nmap", "--script", "ssl-heartbleed", "-sV"] ++
      (if truthyStr ports then pa else ["-p", "443"]) ++ [target])
  else if choice = "11" then
    some (["nmap", "--script", "http-waf-detect,http-waf-fingerprint", "-T4"] ++
      (if truthyStr ports then pa else ["-p", "80,443"]) ++ [target])
  else if choice = "12" then
    some (["nmap", "--script", "http-slowloris-check", "-T4"] ++ pa ++ [target])
  else if choice = "13" then
    some (["sudo", "nmap", "-sS", "-sU", "-T4"] ++
      (if truthyStr ports then pa else ["-p", "T:-,U:1-4000"]) ++ [target])
  else if choice = "14" then
    some (["nmap", "-sV", "-sC", "--script", "\"not intrusive\""] ++ pa ++ [target])
  else if choice = "15" then
    if pyLower confirm = "yes" then
      some (["sudo", "nmap", "-sV", "--script", "exploit", "-T4"] ++ pa ++ [target])
    else none
  else if choice = "16" then
    some (["nmap", "-sV", "--script", "auth", "-T4"] ++ pa ++ [target])
  else if choice = "17" then
    some (["nmap", "--traceroute", "--script", "traceroute-geolocation", "-T4"] ++
      (if truthyStr ports then pa else ["-p", "80"]) ++ [target])
  else if choice = "18" then
    some (["sudo", "nmap", "-A", "-p-", "-T4"] ++ pa ++ [target])
  else if choice = "19" then
    some (["nmap", "-sn", "-T4", target])
  else if choice = "20" then
    some (["sudo", "nmap", "-O", "-T4"] ++ (if truthyStr ports then pa else ["-p-"]) ++ [target])
  else none

/-! ### Main loop state -/

/-- The three loop-local variables of `main()`. -/
structure LoopState where
  target : Option String
  ports : Option String
  session : Option String
deriving DecidableEq

/-- The state mutation performed by one iteration of the main loop
(`src/redeye.py` lines 743-794) for the state-changing choices:
choice `'1'` sets/clears the target, `'2'` the ports, `'8'` reassigns
`current_session` to whatever `set_session()` returns; every other
choice leaves the three variables unchanged.  `input1` is the prompt
answer consumed by the choice, `makedirsOk` whether `os.makedirs`
succeeds in `set_session`. -/
def main_loop_step (st : LoopState) (choice input1 : String)
    (makedirsOk : Bool) : LoopState :=
  if choice = "1" then
    let t := pyStrip input1
    { st with target := if t = "" then none else some t }
  else if choice = "2" then
    let p := pyStrip input1
    { st with ports := if p = "" then none else some p }
  else if choice = "8" then
    { st with session := set_session input1 makedirsOk }
  else st

/-! ### Helper lemmas -/

theorem isPrefixOf_self (l : List Char) : List.isPrefixOf l l = true := by
  induction l with
  | nil => rfl
  | cons c t ih => simp [List.isPrefixOf, ih]

theorem isPrefixOf_slash_cons (c : Char) (l : List Char) (hc : ('/' : Char) ≠ c) :
    List.isPrefixOf ['/'] (c :: l) = false := by
  have hb : ('/' == c) = false := beq_eq_false_iff_ne.mpr hc
  simp [List.isPrefixOf, hb]

/-- A string starting with the five characters of `scan_` never starts
with a slash, whatever the timestamp. -/
theorem strStartsWith_scan_slash (ts : String) :
    strStartsWith ("scan_" ++ ts) "/" = false := by
  have h : ("scan_" ++ ts).data = 's' :: 'c' :: 'a' :: 'n' :: '_' :: ts.data := by
    rw [str_data_append]
    rfl
  show List.isPrefixOf ("/").data (("scan_" ++ ts).data) = false
  rw [h]
  exact isPrefixOf_slash_cons 's' _ (by decide)

/-- Appending in front of a string that does not end in `/` cannot make
it end in `/`. -/
theorem strEndsWith_slash_append (a s : String) (hs : s.data ≠ [])
    (h : strEndsWith s "/" = false) : strEndsWith (a ++ s) "/" = false := by
  unfold strEndsWith List.isSuffixOf at h ⊢
  rw [str_data_append, List.reverse_append]
  rcases hrev : s.data.reverse with _ | ⟨c, t⟩
  · exact absurd (by simpa using congrArg List.reverse hrev) hs
  · rw [hrev] at h
    have h2 : ("/").data.reverse = ['/'] := rfl
    rw [h2] at h ⊢
    rw [List.cons_append]
    simp only [List.isPrefixOf, Bool.and_eq_false_imp] at h ⊢
    simp [List.isPrefixOf] at h
    simp [h]

theorem path_join_normal (a b : String) (ha : a ≠ "")
    (hb : strStartsWith b "/" = false) (ha2 : strEndsWith a "/" = false) :
    path_join a b = a ++ "/" ++ b := by
  simp [path_join, hb, ha, ha2]

theorem str_data_ne_nil {s : String} (h : s ≠ "") : s.data ≠ [] := by
  intro hd
  exact h (str_eq_of_data (hd.trans rfl))

/-- The base filename built inside `run_command` for a well-formed session
name: `os.path.join(os.path.join("redeye_sessions", s), "scan_" + ts)`
is `"redeye_sessions/" + s + "/scan_" + ts`. -/
theorem session_base_path (s ts : String) (hne : s ≠ "")
    (h1 : strStartsWith s "/" = false) (h2 : strEndsWith s "/" = false) :
    path_join (path_join SESSIONS_DIR s) ("scan_" ++ ts) =
      "redeye_sessions/" ++ s ++ "/scan_" ++ ts := by
  have e1 : path_join SESSIONS_DIR s = "redeye_sessions" ++ "/" ++ s :=
    path_join_normal _ _ (by decide) h1 (by decide)
  have hsd : s.data ≠ [] := str_data_ne_nil hne
  have e2 : strEndsWith ("redeye_sessions" ++ "/" ++ s) "/" = false :=
    strEndsWith_slash_append ("redeye_sessions" ++ "/") s hsd h2
  have e3 : ("redeye_sessions" ++ "/" ++ s) ≠ "" := by
    apply str_ne_empty_of_data
    rw [str_data_append]
    intro hcontra
    rcases List.append_eq_nil.mp hcontra with ⟨hA, _⟩
    exact absurd hA (by decide)
  have e5 : path_join ("redeye_sessions" ++ "/" ++ s) ("scan_" ++ ts)
      = ("redeye_sessions" ++ "/" ++ s) ++ "/" ++ ("scan_" ++ ts) :=
    path_join_normal _ _ e3 (strStartsWith_scan_slash ts) e2
  rw [e1, e5]
  apply str_eq_of_data
  simp only [str_data_append, List.append_assoc, List.cons_append, List.nil_append]

/-- `run_command` leaves any vector whose first element is not `nmap`
unchanged, session or not. -/
theorem run_command_args_of_head_ne (cmd : List String) (session : Option String)
    (ts : String) (h : cmd.head? ≠ some "nmap") :
    run_command_args cmd session ts = cmd := by
  cases session with
  | none => rfl
  | some s =>
    have hb : (cmd.head? == some "nmap") = false := by
      simpa using h
    simp [run_command_args, is_nmap_scan, hb]

/-- Running Python `replace(pat, repl)` over `q ++ pat`, when `pat` occurs
nowhere except as the trailing block, yields `q ++ repl`. -/
theorem pyReplaceFuel_append_pat (pat repl : List Char) (hpat : pat ≠ []) :
    ∀ (q : List Char) (fuel : Nat), (q ++ pat).length ≤ fuel →
    (∀ i < q.length, List.isPrefixOf pat ((q ++ pat).drop i) = false) →
    pyReplaceFuel pat repl fuel (q ++ pat) = q ++ repl := by
  intro q
  induction q with
  | nil =>
    intro fuel hfuel _
    rcases pat with _ | ⟨pc, pr⟩
    · exact absurd rfl hpat
    · cases fuel with
      | zero => simp at hfuel
      | succ f =>
        show pyReplaceFuel (pc :: pr) repl (f + 1) (pc :: pr) = repl
        rw [pyReplaceFuel]
        rw [if_pos ⟨hpat, isPrefixOf_self (pc :: pr)⟩]
        rw [List.drop_length]
        simp [pyReplaceFuel]
  | cons c q' ih =>
    intro fuel hfuel hocc
    cases fuel with
    | zero => simp at hfuel
    | succ f =>
      have hnot : List.isPrefixOf pat (c :: (q' ++ pat)) = false := by
        have h0 := hocc 0 (by simp)
        simpa using h0
      show pyReplaceFuel pat repl (f + 1) (c :: (q' ++ pat)) = c :: (q' ++ repl)
      rw [pyReplaceFuel]
      rw [if_neg (fun hcon => by simp [hnot] at hcon)]
      congr 1
      refine ih f ?_ ?_
      · simp at hfuel ⊢
        omega
      · intro i hi
        have hi1 := hocc (i + 1) (by simp at hi ⊢; omega)
        simpa using hi1

/-- Specialisation to the `.xml` → `.html` replacement in
`generate_report`. -/
theorem pyReplaceList_trailing (q : List Char)
    (h : ∀ i < q.length,
        List.isPrefixOf (".xml").data ((q ++ (".xml").data).drop i) = false) :
    pyReplaceList (q ++ (".xml").data) (".xml").data (".html").data =
      q ++ (".html").data :=
  pyReplaceFuel_append_pat _ _ (by decide) q _ (le_refl _) h

/-! ### Claim theorems -/

/-- C1: when a session is active, a vector headed by `nmap` containing
neither `-sn` nor `-sL` gets exactly the four elements
`-oN <root>/<session>/scan_<ts>.nmap -oX <root>/<session>/scan_<ts>.xml`
appended (for a well-formed session name: nonempty, not starting or
ending in a path separator); a vector containing `-sn` or `-sL`, or a run
with no active session, is launched unchanged. -/
theorem run_command_output_files :
    (∀ (cmd : List String) (s ts : String),
        cmd.head? = some "nmap" →
        cmd.contains "-sn" = false →
        cmd.contains "-sL" = false →
        s ≠ "" →
        strStartsWith s "/" = false →
        strEndsWith s "/" = false →
        run_command_args cmd (some s) ts =
          cmd ++ ["-oN", "redeye_sessions/" ++ s ++ "/scan_" ++ ts ++ ".nmap",
                  "-oX", "redeye_sessions/" ++ s ++ "/scan_" ++ ts ++ ".xml"]) ∧
    (∀ (cmd : List String) (session : Option String) (ts : String),
        cmd.contains "-sn" = true ∨ cmd.contains "-sL" = true →
        run_command_args cmd session ts = cmd) ∧
    (∀ (cmd : List String) (ts : String), run_command_args cmd none ts = cmd) := by
  refine ⟨?_, ?_, fun cmd ts => rfl⟩
  · intro cmd s ts h1 h2 h3 h4 h5 h6
    have hs : (s != "") = true := by simpa using h4
    have h2' : "-sn" ∉ cmd := by simpa using h2
    have h3' : "-sL" ∉ cmd := by simpa using h3
    have hscan : is_nmap_scan cmd = true := by
      simp [is_nmap_scan, h1, h2', h3']
    simp [run_command_args, hs, hscan, session_base_path s ts h4 h5 h6]
  · intro cmd session ts h
    cases session with
    | none => rfl
    | some s =>
      have h' : "-sn" ∈ cmd ∨ "-sL" ∈ cmd := by
        rcases h with h | h
        · exact Or.inl (by simpa using h)
        · exact Or.inr (by simpa using h)
      have hscan : is_nmap_scan cmd = false := by
        rcases h' with h | h <;> simp [is_nmap_scan, h]
      simp [run_command_args, hscan]

/-- C1 witness: the spec scenario `["nmap","-sC","10.0.0.5"]` with session
`proj` gains the two output files; `["nmap","-sn","10.0.0.5"]` gains
none. -/
theorem run_command_output_files_witness :
    run_command_args ["nmap", "-sC", "10.0.0.5"] (some "proj") "2024-01-01_00-00-00" =
      ["nmap", "-sC", "10.0.0.5",
       "-oN", "redeye_sessions/proj/scan_2024-01-01_00-00-00.nmap",
       "-oX", "redeye_sessions/proj/scan_2024-01-01_00-00-00.xml"] ∧
    run_command_args ["nmap", "-sn", "10.0.0.5"] (some "proj") "t" =
      ["nmap", "-sn", "10.0.0.5"] := by
  constructor
  · have h := run_command_output_files.1 ["nmap", "-sC", "10.0.0.5"] "proj"
      "2024-01-01_00-00-00" rfl (by decide) (by decide) (by decide) (by decide) (by decide)
    exact h.trans (by decide)
  · exact run_command_output_files.2.1 ["nmap", "-sn", "10.0.0.5"] (some "proj") "t"
      (Or.inl (by decide))

/-- C2 counterexample: for an os-release containing `ubuntu` (termux
marker absent), `detect_os` returns the update command
`apt-get update -y`, not exactly `apt-get update` as the claim states. -/
theorem detect_os_ubuntu_update_counterexample :
    (detect_os ⟨"", false, true, some "NAME=Ubuntu", fun _ => false, false⟩).updateCmd =
      some ["apt-get", "update", "-y"] ∧
    (detect_os ⟨"", false, true, some "NAME=Ubuntu", fun _ => false, false⟩).updateCmd ≠
      some ["apt-get", "update"] := by
  exact ⟨by decide, by decide⟩

/-- C2 (amended): for every os-release whose lowercased contents contain
`ubuntu`, with the termux marker absent, `detect_os` yields the apt
manager with install prefix `apt-get install -y` and update command
`apt-get update -y`. -/
theorem detect_os_ubuntu (env : Env) (raw : String)
    (hterm1 : strStartsWith env.prefixVar "/data/data/com.termux/files/usr" = false)
    (hterm2 : env.termuxDirExists = false)
    (hrel : env.osReleaseExists = true)
    (hcontent : env.osReleaseContent = some raw)
    (hub : strContains (pyLower raw) "ubuntu" = true) :
    detect_os env = ⟨"ubuntu", some "apt", some ["apt-get", "install", "-y"],
      some ["apt-get", "update", "-y"]⟩ := by
  simp [detect_os, hterm1, hterm2, hrel, hcontent, hub]

/-- C2 witness: a concrete ubuntu os-release. -/
theorem detect_os_ubuntu_witness :
    detect_os ⟨"", false, true, some "NAME=Ubuntu", fun _ => false, false⟩ =
      ⟨"ubuntu", some "apt", some ["apt-get", "install", "-y"],
        some ["apt-get", "update", "-y"]⟩ :=
  detect_os_ubuntu ⟨"", false, true, some "NAME=Ubuntu", fun _ => false, false⟩
    "NAME=Ubuntu" (by decide) (by decide) (by decide) (by decide) (by decide)

/-- C3: evaluation of the selection logic at the failing inputs.  The
user entry `0` becomes index `-1`, which Python resolves to the LAST
file instead of reporting an invalid selection (likewise in
`compare_scans`); non-numeric and too-large or too-negative entries do
land in the `except (ValueError, IndexError)` arm. -/
theorem selection_zero_selects_last :
    generate_report_select "s" ["a.xml", "b.xml"] "0" =
      ReportOutcome.runsXsltproc "redeye_sessions/s/b.html" "redeye_sessions/s/b.xml" ∧
    compare_scans (some "s") true ["a.xml", "b.xml"] "0" "1" =
      CompareOutcome.runsNdiff "redeye_sessions/s/b.xml" "redeye_sessions/s/a.xml" ∧
    generate_report_select "s" ["a.xml", "b.xml"] "abc" = ReportOutcome.invalidSelection ∧
    generate_report_select "s" ["a.xml", "b.xml"] "3" = ReportOutcome.invalidSelection ∧
    generate_report_select "s" ["a.xml", "b.xml"] "-3" = ReportOutcome.invalidSelection := by
  decide

/-- C4: `pkg_name_for_bin` does map `ndiff` to `nmap` under apt/pkg/pacman
and `xsltproc` to `libxslt` under pacman/dnf/yum, but the second mapping
table, in `install_dependency`, resolves `ndiff` to its own binary name
`ndiff` on the apt branch (and on the dnf/yum branch), contradicting the
comment directly above it. -/
theorem pkg_mapping_ndiff_bug :
    pkg_name_for_bin "ndiff" "apt" = "nmap" ∧
    pkg_name_for_bin "ndiff" "pkg" = "nmap" ∧
    pkg_name_for_bin "ndiff" "pacman" = "nmap" ∧
    pkg_name_for_bin "xsltproc" "pacman" = "libxslt" ∧
    pkg_name_for_bin "xsltproc" "dnf" = "libxslt" ∧
    pkg_name_for_bin "xsltproc" "yum" = "libxslt" ∧
    install_dependency_package_map_apt "ndiff" = some "ndiff" ∧
    install_dependency_package_map_redhat "ndiff" = some "ndiff" ∧
    install_dependency_package_map_redhat "xsltproc" = some "libxslt" := by
  decide

/-- C5: listing artifacts returns exactly the directory entries ending in
the suffix (as a permutation of the filter), sorted in the Python string
order; an absent directory yields the empty list, and the concrete
directory `{a.xml, b.xml}` yields `["a.xml", "b.xml"]` for `.xml`. -/
theorem list_files_spec :
    (∀ (listing : List String) (ext : String),
        list_files_in_session false listing ext = []) ∧
    (∀ (listing : List String) (ext : String),
        List.Perm (list_files_in_session true listing ext)
          (listing.filter (fun f => strEndsWith f ext))) ∧
    (∀ (listing : List String) (ext : String),
        List.Sorted strLeProp (list_files_in_session true listing ext)) ∧
    list_files_in_session true ["a.xml", "b.xml"] ".xml" = ["a.xml", "b.xml"] := by
  refine ⟨fun listing ext => rfl, fun listing ext => ?_, fun listing ext => ?_, by decide⟩
  · simpa [list_files_in_session, pySorted] using
      List.perm_insertionSort strLeProp (listing.filter (fun f => strEndsWith f ext))
  · simpa [list_files_in_session, pySorted] using
      List.sorted_insertionSort strLeProp (listing.filter (fun f => strEndsWith f ext))

/-- C6: with every required tool on the search path, `ensure_tools`
returns success and issues no update or install command at all. -/
theorem ensure_tools_all_present (env : Env)
    (h : ∀ t ∈ REQUIRED, env.which t = true) :
    ensure_tools env = (true, []) := by
  have hm : (check_tools env.which).2 = [] := by
    simp only [check_tools]
    rw [List.filter_eq_nil_iff]
    intro a ha
    simp [h a ha]
  simp [ensure_tools, hm]

/-- C6 witness: a search path containing everything. -/
theorem ensure_tools_all_present_witness :
    ensure_tools ⟨"", false, false, none, fun _ => true, false⟩ = (true, []) :=
  ensure_tools_all_present ⟨"", false, false, none, fun _ => true, false⟩ (by decide)

/-- C7 counterexample: selecting the listed artifact `a.xml.xml` derives
the HTML path `a.html.html` — `replace` rewrote a non-trailing `.xml` as
well — where the claim requires `a.xml.html`. -/
theorem html_path_counterexample :
    generate_report_select "s" ["a.xml.xml"] "1" =
      ReportOutcome.runsXsltproc "redeye_sessions/s/a.html.html"
        "redeye_sessions/s/a.xml.xml" ∧
    ("redeye_sessions/s/a.html.html" : String) ≠ "redeye_sessions/s/a.xml.html" := by
  exact ⟨by decide, by decide⟩

/-- C7 (amended): the derived HTML path replaces every occurrence of
`.xml` by `.html`; whenever `.xml` occurs in the source path only as the
trailing extension, this coincides with swapping the trailing extension. -/
theorem html_report_path (p : String)
    (h : ∀ i < p.data.length,
        List.isPrefixOf (".xml").data ((p.data ++ (".xml").data).drop i) = false) :
    html_path_for (p ++ ".xml") = p ++ ".html" := by
  apply str_eq_of_data
  show pyReplaceList ((p ++ ".xml").data) (".xml").data (".html").data = (p ++ ".html").data
  rw [str_data_append, str_data_append]
  exact pyReplaceList_trailing p.data h

/-- C7 witness: a typical artifact path. -/
theorem html_report_path_witness :
    html_path_for ("redeye_sessions/s/scan_2024-01-01_00-00-00" ++ ".xml") =
      "redeye_sessions/s/scan_2024-01-01_00-00-00" ++ ".html" :=
  html_report_path "redeye_sessions/s/scan_2024-01-01_00-00-00" (by decide)

/-- C8: with an active session whose directory holds fewer than two
files ending in `.xml`, the comparison action is refused before any
selection is read and no `ndiff` invocation happens. -/
theorem compare_refused_below_two (s : String) (dirExists : Bool)
    (listing : List String) (in1 in2 : String)
    (hs : s ≠ "")
    (hcount : (listing.filter (fun f => strEndsWith f ".xml")).length < 2) :
    compare_scans (some s) dirExists listing in1 in2 = CompareOutcome.needTwoFiles := by
  have hlen : (list_files_in_session dirExists listing ".xml").length < 2 := by
    cases dirExists with
    | false => simp [list_files_in_session]
    | true =>
      have hp := (List.perm_insertionSort strLeProp
        (listing.filter (fun f => strEndsWith f ".xml"))).length_eq
      simpa [list_files_in_session, pySorted, hp] using hcount
  simp [compare_scans, hs, hlen]

/-- C8 witness: one `.xml` scan only. -/
theorem compare_refused_below_two_witness :
    compare_scans (some "s") true ["a.xml"] "1" "2" = CompareOutcome.needTwoFiles :=
  compare_refused_below_two "s" true ["a.xml"] "1" "2" (by decide) (by decide)

/-- C9: `run_command` appends output files only when the very first
element is `nmap`, so every vector headed by anything else — in
particular every `sudo`-prefixed vector the advanced-scans menu builds
for its privileged choices — is launched unchanged even with a session
active, and produces no session artifacts. -/
theorem sudo_scans_produce_no_artifacts :
    (∀ (cmd : List String) (session : Option String) (ts : String),
        cmd.head? ≠ some "nmap" → run_command_args cmd session ts = cmd) ∧
    (∀ choice ∈ (["1", "2", "3", "4", "5", "13", "15", "18", "20"] : List String),
      ∀ (target : String) (ports : Option String) (zombie confirm : String)
        (cl : List String),
        advanced_scan_command choice target ports zombie confirm = some cl →
        cl.head? = some "sudo" ∧
          ∀ (session : Option String) (ts : String),
            run_command_args cl session ts = cl) := by
  refine ⟨fun cmd session ts h => run_command_args_of_head_ne cmd session ts h, ?_⟩
  intro choice hmem target ports zombie confirm cl hcl
  fin_cases hmem <;> simp [advanced_scan_command] at hcl
  · subst hcl
    exact ⟨rfl, fun session ts => run_command_args_of_head_ne _ _ _ (by simp)⟩
  · subst hcl
    exact ⟨rfl, fun session ts => run_command_args_of_head_ne _ _ _ (by simp)⟩
  · subst hcl
    exact ⟨rfl, fun session ts => run_command_args_of_head_ne _ _ _ (by simp)⟩
  · subst hcl
    exact ⟨rfl, fun session ts => run_command_args_of_head_ne _ _ _ (by simp)⟩
  · obtain ⟨-, hcl⟩ := hcl
    subst hcl
    exact ⟨rfl, fun session ts => run_command_args_of_head_ne _ _ _ (by simp)⟩
  · subst hcl
    exact ⟨rfl, fun session ts => run_command_args_of_head_ne _ _ _ (by simp)⟩
  · obtain ⟨-, hcl⟩ := hcl
    subst hcl
    exact ⟨rfl, fun session ts => run_command_args_of_head_ne _ _ _ (by simp)⟩
  · subst hcl
    exact ⟨rfl, fun session ts => run_command_args_of_head_ne _ _ _ (by simp)⟩
  · subst hcl
    exact ⟨rfl, fun session ts => run_command_args_of_head_ne _ _ _ (by simp)⟩

/-- C9 witness: the full-port no-ping scan (advanced choice 2) with a
session active runs exactly its built `sudo` vector, with no output-file
arguments appended. -/
theorem sudo_scans_produce_no_artifacts_witness :
    run_command_args ["sudo", "nmap", "-Pn", "-sS", "-T4", "-p-", "10.0.0.5"]
      (some "proj") "ts" = ["sudo", "nmap", "-Pn", "-sS", "-T4", "-p-", "10.0.0.5"] := by
  have h := sudo_scans_produce_no_artifacts.2 "2" (by decide) "10.0.0.5" none "" ""
    ["sudo", "nmap", "-Pn", "-sS", "-T4", "-p-", "10.0.0.5"] (by decide)
  exact h.2 (some "proj") "ts"

/-- C10: when `set_session` fails — blank name after stripping, or
`os.makedirs` raising — the main loop's `current_session` is reassigned
to `None`, discarding any previously active session; target and ports
are untouched. -/
theorem set_session_failure_clears (st : LoopState) (raw : String) (mk : Bool)
    (h : pyStrip raw = "" ∨ mk = false) :
    (main_loop_step st "8" raw mk).session = none ∧
    (main_loop_step st "8" raw mk).target = st.target ∧
    (main_loop_step st "8" raw mk).ports = st.ports := by
  have hs : set_session raw mk = none := by
    rcases h with h | h
    · simp [set_session, h]
    · subst h
      simp [set_session]
  refine ⟨?_, ?_, ?_⟩ <;> simp [main_loop_step, hs]

/-- C10 witness: a previously active session is discarded by a blank
entry. -/
theorem set_session_failure_clears_witness :
    (main_loop_step ⟨some "10.0.0.5", none, some "old"⟩ "8" "   " true).session = none ∧
    (main_loop_step ⟨some "10.0.0.5", none, some "old"⟩ "8" "   " true).target =
      some "10.0.0.5" ∧
    (main_loop_step ⟨some "10.0.0.5", none, some "old"⟩ "8" "   " true).ports = none :=
  set_session_failure_clears ⟨some "10.0.0.5", none, some "old"⟩ "   " true
    (Or.inl (by decide))

end Redeye
